import Mathlib

/-!
Verification of the PayMind x402 payment subsystem.

Shallow embedding of:
- src/backend/src/x402/facilitator.ts  (createPaymentRequirement, verifyPaymentProof)
- src/backend/src/x402/client.ts       (payAndFetch)
- the AgentRegistry Solidity contract  (canSpend, recordSpend)
- the two-tier payment ledger in src/backend/src/config.ts
  (logPayment, getPaymentsByAgent, getAgentStats)

Modelling conventions: wei amounts are integers (the TS code converts the
numeric strings with BigInt before comparing); unix timestamps and nonces
are naturals; EIP-712 signature recovery (ethers.verifyTypedData) is an
abstract parameter `recover` mapping a proof to the recovered address,
since the recovered address is a function of the proof fields and the
signature; Math.random draws are explicit parameters; the replay Set of
nonce keys is a list of strings with membership standing for Set.has.
-/

/-- the PaymentProof interface of facilitator.ts; `fromAddr` and `toAddr`
embed the fields `from` and `to` (Lean keywords), and `amount` holds the
integer value of the wei string. -/
structure PaymentProof where
  signature : String
  fromAddr : String
  toAddr : String
  amount : Int
  resource : String
  nonce : Nat
  expiry : Nat
deriving DecidableEq, Repr

/-- the result record of verifyPaymentProof. -/
structure VerifyResult where
  valid : Bool
  signer : String
  reason : Option String
deriving DecidableEq, Repr

/-- character-wise lowercase, embedding the toLowerCase calls of the TS
code on ASCII hex addresses. -/
def lowerStr (s : String) : String := ⟨s.data.map Char.toLower⟩

/-- the replay key, as built in facilitator.ts line 96. -/
def nonceKey (p : PaymentProof) : String :=
  p.fromAddr ++ "-" ++ toString p.nonce

/-- verifyPaymentProof of facilitator.ts, lines 83-159.  Takes the replay
set before the call and returns the result together with the replay set
after the call.  `recover` abstracts ethers.verifyTypedData over the fixed
domain and types. -/
def verifyPaymentProof (recover : PaymentProof → String) (now : Nat)
    (usedNonces : List String) (proof : PaymentProof)
    (expectedResource : String) (expectedAmount : Int) :
    VerifyResult × List String :=
  if proof.expiry < now then
    (⟨false, "", some "Payment proof expired"⟩, usedNonces)
  else if nonceKey proof ∈ usedNonces then
    (⟨false, "", some "Nonce already used"⟩, usedNonces)
  else if proof.amount < expectedAmount then
    (⟨false, "",
      some ("Insufficient payment: " ++ toString proof.amount ++ " < " ++
        toString expectedAmount)⟩, usedNonces)
  else if proof.resource ≠ expectedResource then
    (⟨false, "",
      some ("Resource mismatch: " ++ proof.resource ++ " !== " ++
        expectedResource)⟩, usedNonces)
  else if lowerStr (recover proof) ≠ lowerStr proof.fromAddr then
    (⟨false, recover proof, some "Signature does not match claimed sender"⟩,
      usedNonces)
  else
    (⟨true, recover proof, none⟩, nonceKey proof :: usedNonces)

/-- the PaymentRequirement interface of facilitator.ts. -/
structure PaymentRequirement where
  amount : String
  currency : String
  receiver : String
  resource : String
  network : String
  chainId : Nat
  nonce : Nat
  expiry : Nat
deriving DecidableEq, Repr

/-- BSC USDT address from config.ts. -/
def usdtAddress : String := "0x55d398326f99059fF775485246999027B3197955"

/-- createPaymentRequirement of facilitator.ts, lines 62-77.  `rand`
embeds the value of Math.random scaled by 1000000, so the nonce is
Math.floor of it, i.e. `rand % 1000000` for a natural draw; `now` embeds
Date.now / 1000. -/
def createPaymentRequirement (rand : Nat) (now : Nat)
    (resource : String) (amount : String) (receiver : String) :
    PaymentRequirement :=
  { amount := amount
    currency := usdtAddress
    receiver := receiver
    resource := resource
    network := "bsc"
    chainId := 56
    nonce := rand % 1000000
    expiry := now + 300 }

/-- the Agent struct of the AgentRegistry contract; addresses are
naturals with 0 embedding address(0), and uint256 values are naturals
(Solidity 0.8 checked arithmetic reverts on overflow, and a sum that
would overflow also exceeds any representable dailyBudget, so the accept
and reject behaviour of the comparisons is unchanged). -/
structure Agent where
  wallet : Nat
  name : String
  dailyBudget : Nat
  spentToday : Nat
  lastResetDay : Nat
  active : Bool
  registeredAt : Nat
deriving DecidableEq, Repr

/-- canSpend of the AgentRegistry contract.  `currentDay` embeds
block.timestamp / 1 days; the zero-initialized mapping entry of an
unregistered agent is an Agent value with wallet = 0. -/
def canSpend (a : Agent) (currentDay : Nat) (amount : Nat) : Bool :=
  if a.wallet = 0 || !a.active then false
  else
    let spent := if a.lastResetDay < currentDay then 0 else a.spentToday
    decide (spent + amount ≤ a.dailyBudget)

/-- recordSpend of the AgentRegistry contract (the onlyPaymentLedger
caller restriction is outside the modelled state).  `none` embeds a
revert, which rolls back every state write of the call, including the
day-rollover reset. -/
def recordSpend (a : Agent) (currentDay : Nat) (amount : Nat) :
    Option Agent :=
  if a.wallet = 0 then none
  else if !a.active then none
  else
    let a1 :=
      if a.lastResetDay < currentDay then
        { a with spentToday := 0, lastResetDay := currentDay }
      else a
    if a1.spentToday + amount ≤ a1.dailyBudget then
      some { a1 with spentToday := a1.spentToday + amount }
    else none

/-- one recordSpend transaction from the caller's point of view: the
state after the call together with whether it succeeded (a revert leaves
the registry state unchanged). -/
def recordSpendStep (a : Agent) (currentDay : Nat) (amount : Nat) :
    Agent × Bool :=
  match recordSpend a currentDay amount with
  | some a1 => (a1, true)
  | none => (a, false)

/-- a sequence of recordSpend transactions on one day, keeping the state
reached after each call. -/
def runSpends (a : Agent) (currentDay : Nat) : List Nat → Agent
  | [] => a
  | amt :: rest => runSpends (recordSpendStep a currentDay amt).1 currentDay rest

/-- the PaymentProof object as the client builds it, with the wei amount
kept as the string the client copies verbatim from the requirement (the
verifier model above converts such strings to integers). -/
structure PaymentProofJson where
  signature : String
  fromAddr : String
  toAddr : String
  amount : String
  resource : String
  nonce : Nat
  expiry : Nat
deriving DecidableEq, Repr

/-- the requirement object the client reads out of a 402 body in
client.ts; nonce and expiry are optional because the server may omit
them (and the JS fallbacks treat 0 as absent, which jsOrNat mirrors). -/
structure RequirementJson where
  amount : String
  receiver : String
  resource : String
  nonce : Option Nat
  expiry : Option Nat
deriving DecidableEq, Repr

/-- a parsed 402 body: either the requirement nested under the
paymentRequirement key or the bare requirement object (client.ts line 62:
body.paymentRequirement or body). -/
inductive ChallengeJson where
  | nested (r : RequirementJson)
  | bare (r : RequirementJson)
deriving DecidableEq, Repr

/-- an HTTP response as the client observes it: the status code, the body
parsed as a challenge (when that parse succeeds), and the body parsed as
a data payload (when that parse succeeds). -/
structure HttpResponse where
  status : Nat
  challenge : Option ChallengeJson
  payload : Option String
deriving DecidableEq, Repr

/-- fetch Response.ok: status in the range 200-299. -/
def respOk (r : HttpResponse) : Bool :=
  decide (200 ≤ r.status) && decide (r.status ≤ 299)

/-- the JS expression `v or default` on a number field, where undefined
and 0 are both falsy. -/
def jsOrNat (v : Option Nat) (d : Nat) : Nat :=
  match v with
  | some n => if n = 0 then d else n
  | none => d

/-- the JS expression `v or default` on a string field, where undefined
and the empty string are both falsy. -/
def jsOrStr (v : Option String) (d : String) : String :=
  match v with
  | some s => if s = "" then d else s
  | none => d

/-- the proof the client signs and attaches in client.ts lines 68-90:
receiver, resource and amount come from the requirement (or the amount
argument), nonce and expiry from the requirement with the client's own
defaults substituted when omitted.  `sign` abstracts
signPaymentAuthorization over (to, amount, resource, nonce, expiry). -/
def buildProof (agentAddress : String)
    (sign : String → String → String → Nat → Nat → String)
    (randNonce : Nat) (now : Nat) (amountArg : Option String)
    (r : RequirementJson) : PaymentProofJson :=
  let paymentAmount := jsOrStr amountArg r.amount
  let nonce := jsOrNat r.nonce randNonce
  let expiry := jsOrNat r.expiry (now + 300)
  { signature := sign r.receiver paymentAmount r.resource nonce expiry
    fromAddr := agentAddress
    toAddr := r.receiver
    amount := paymentAmount
    resource := r.resource
    nonce := nonce
    expiry := expiry }

/-- the result record payAndFetch resolves with on success. -/
structure PayAndFetchResult where
  data : String
  paid : Bool
  paymentAmount : String
  paymentProof : Option PaymentProofJson
deriving DecidableEq, Repr

/-- outcome of a payAndFetch call: a resolved result or a thrown error. -/
inductive FetchOutcome where
  | success (r : PayAndFetchResult)
  | failure (msg : String)
deriving DecidableEq, Repr

/-- the requirement extracted from a parsed 402 body, client.ts line 62:
body.paymentRequirement when present, else the body itself. -/
def reqOf (cj : ChallengeJson) : RequirementJson :=
  match cj with
  | .nested q => q
  | .bare q => q

/-- the paid retry of payAndFetch, client.ts lines 68-124: sign the
proof, make the second request, and treat any non-success response as a
thrown terminal error; the second component is the number of requests
the whole call has made when this branch runs. -/
def handleChallenge (agentAddress : String)
    (sign : String → String → String → Nat → Nat → String)
    (randNonce : Nat) (now : Nat) (amountArg : Option String)
    (r : RequirementJson) (serve : PaymentProofJson → HttpResponse) :
    FetchOutcome × Nat :=
  let proof := buildProof agentAddress sign randNonce now amountArg r
  let paidResponse := serve proof
  if !respOk paidResponse then
    (.failure ("Paid request failed: " ++ toString paidResponse.status), 2)
  else
    match paidResponse.payload with
    | some d =>
        (.success ⟨d, true, jsOrStr amountArg r.amount, some proof⟩, 2)
    | none => (.failure "response body did not parse", 2)

/-- payAndFetch of client.ts, lines 33-124.  `first` is the response to
the initial request and `serve` maps the signed proof attached on the
retry to the retry response; the second component counts the requests
made.  A body that fails to parse in the branch that reads it is a thrown
error, as in the TS code. -/
def payAndFetch (agentAddress : String)
    (sign : String → String → String → Nat → Nat → String)
    (randNonce : Nat) (now : Nat) (amountArg : Option String)
    (first : HttpResponse) (serve : PaymentProofJson → HttpResponse) :
    FetchOutcome × Nat :=
  if first.status ≠ 402 then
    if !respOk first then
      (.failure ("Request failed: " ++ toString first.status), 1)
    else
      match first.payload with
      | some d => (.success ⟨d, false, "0", none⟩, 1)
      | none => (.failure "response body did not parse", 1)
  else
    match first.challenge with
    | none =>
        (.failure "Could not parse 402 payment requirement from server", 1)
    | some cj =>
        handleChallenge agentAddress sign randNonce now amountArg (reqOf cj)
          serve

/-- the PaymentRecord interface of the ledger in config.ts; the wei
amount string is embedded as its integer value (the stats update converts
it with BigInt). -/
structure PaymentRecord where
  agent : String
  provider : String
  amount : Int
  serviceType : String
  txHash : String
  timestamp : Nat
deriving DecidableEq, Repr

/-- the inMemoryStats record of the ledger in config.ts. -/
structure InMemoryStats where
  totalSpent : Int
  queryCount : Nat
  firstPayment : Nat
  lastPayment : Nat
deriving DecidableEq, Repr

/-- the process-side ledger state of config.ts: the in-memory fallback
records and the process-global inMemoryStats.  The authoritative
PaymentLedger contract state lives in PaymentLedgerState below; the TS
functions reach it only through ethers contract calls, so here those
calls appear as explicit outcome parameters. -/
structure TsLedgerState where
  mem : List PaymentRecord
  memStats : InMemoryStats
deriving DecidableEq, Repr

/-- the result of logPayment in config.ts. -/
structure LogResult where
  success : Bool
  onChain : Bool
deriving DecidableEq, Repr

/-- the in-memory fallback branch of logPayment (config.ts lines
311-333): append the record and update the global stats. -/
def fallbackLog (agentAddress : String) (now : Nat) (st : TsLedgerState)
    (provider : String) (amount : Int) (serviceType : String)
    (txHash : String) : LogResult × TsLedgerState :=
  let record : PaymentRecord :=
    ⟨agentAddress, provider, amount, serviceType, txHash, now⟩
  let stats := st.memStats
  let stats1 : InMemoryStats :=
    { totalSpent := stats.totalSpent + amount
      queryCount := stats.queryCount + 1
      firstPayment := if stats.firstPayment = 0 then now else stats.firstPayment
      lastPayment := now }
  (⟨true, false⟩, { st with mem := st.mem ++ [record], memStats := stats1 })

/-- logPayment of config.ts, lines 285-333.  `chainConfigured` embeds
getContract() returning non-null (hasContract and wallet construction
succeed); `chainWriteOk` embeds the awaited contract call and receipt
succeeding, an outcome of the external ethers call kept abstract here.
Against this repository's own PaymentLedger contract the write in fact
always fails, because the backend ABI declares
logPayment(address,uint256,string,bytes32) while the contract implements
logPayment(string,uint256,bytes32,string), a different selector, so the
fallback branch runs; chainWriteOk = false covers that case.  On a
successful on-chain write the in-memory state is untouched and the
result is flagged onChain; on an unconfigured store or a failed write
the code falls through to the in-memory fallback. -/
def logPaymentTs (chainConfigured chainWriteOk : Bool)
    (agentAddress : String) (now : Nat) (st : TsLedgerState)
    (provider : String) (amount : Int) (serviceType : String)
    (txHash : String) : LogResult × TsLedgerState :=
  if chainConfigured && chainWriteOk then (⟨true, true⟩, st)
  else fallbackLog agentAddress now st provider amount serviceType txHash

/-- the JS default of the optional agentAddress argument in config.ts:
the caller value unless it is falsy, else the process agent address. -/
def resolveAddr (agentAddress : String) (agentArg : Option String) : String :=
  jsOrStr agentArg agentAddress

/-- getPaymentsByAgent of config.ts, lines 338-364.  `chainConfigured`
embeds getReadOnlyContract() returning non-null; `chainRead` is the
decoded result of the awaited contract read for the resolved address,
kept abstract (none embeds a throw anywhere in the call or the decode;
against this repository's contract the decode cannot succeed, since the
backend ABI's record tuple (agent, provider address, amount, serviceType,
txHash, timestamp) does not match the contract's Payment layout (agent,
dataSource string, amount, dataHash, timestamp, queryType)).  When the
contract is unconfigured or the read fails, the in-memory records are
filtered case-insensitively by agent, as in the TS fallback branch. -/
def getPaymentsByAgentTs (chainConfigured : Bool)
    (chainRead : Option (List PaymentRecord)) (agentAddress : String)
    (st : TsLedgerState) (agentArg : Option String) : List PaymentRecord :=
  let addr := resolveAddr agentAddress agentArg
  if chainConfigured then
    match chainRead with
    | some recs => recs
    | none => st.mem.filter (fun r => lowerStr r.agent = lowerStr addr)
  else st.mem.filter (fun r => lowerStr r.agent = lowerStr addr)

/-- total of the amount fields of a list of records. -/
def sumAmounts (l : List PaymentRecord) : Int :=
  l.foldl (fun s r => s + r.amount) 0

/-- getAgentStats of config.ts, lines 369-395.  `chainStats` is the
decoded result of the awaited contract getAgentStats read for the
resolved address (this one matches the contract's four uint256 returns),
none embedding a throw.  The fallback branch returns the process-global
inMemoryStats, ignoring which agent was asked about, as the TS code
does. -/
def getAgentStatsTs (chainConfigured : Bool)
    (chainStats : Option InMemoryStats) (st : TsLedgerState) :
    InMemoryStats :=
  if chainConfigured then
    match chainStats with
    | some s => s
    | none => st.memStats
  else st.memStats

/-- the argument tuple of one ledger commit. -/
structure CommitCall where
  provider : String
  amount : Int
  serviceType : String
  txHash : String
  now : Nat
deriving DecidableEq, Repr

/-- a sequence of ledger commits threaded through the process state,
with a fixed configuration and write outcome. -/
def runLogsTs (agentAddress : String) (chainConfigured chainWriteOk : Bool)
    (st : TsLedgerState) : List CommitCall → TsLedgerState
  | [] => st
  | c :: rest =>
      runLogsTs agentAddress chainConfigured chainWriteOk
        (logPaymentTs chainConfigured chainWriteOk agentAddress c.now st
          c.provider c.amount c.serviceType c.txHash).2 rest

/-- the Payment struct of the PaymentLedger contract in
src/frontend/src/lib/api.ts; the bytes32 dataHash is an opaque value. -/
structure Payment where
  agent : Nat
  dataSource : String
  amount : Nat
  dataHash : String
  timestamp : Nat
  queryType : String
deriving DecidableEq, Repr

/-- state of the PaymentLedger contract: the payments array, the three
aggregate mappings, and the agents mapping of the linked AgentRegistry
contract it calls into. -/
structure PaymentLedgerState where
  payments : List Payment
  totalSpentByAgent : Nat → Nat
  paymentCountByAgent : Nat → Nat
  spentBySourceByAgent : Nat → String → Nat
  agents : Nat → Agent

/-- total of the amount fields of a list of contract payments. -/
def sumPay (l : List Payment) : Nat :=
  l.foldl (fun s p => s + p.amount) 0

/-- logPayment of the PaymentLedger contract.  `ts` embeds
block.timestamp, so the registry day is ts / 86400 (1 days); none embeds
a revert of the whole transaction, including a revert raised inside
AgentRegistry.recordSpend.  The requires run in source order: non-empty
dataSource, non-zero amount, non-empty queryType, canSpend, then
recordSpend, then the payment append and the three mapping updates for
msg.sender. -/
def ledgerLogPayment (st : PaymentLedgerState) (sender : Nat) (ts : Nat)
    (dataSource : String) (amount : Nat) (dataHash : String)
    (queryType : String) : Option PaymentLedgerState :=
  if dataSource = "" then none
  else if amount = 0 then none
  else if queryType = "" then none
  else if !canSpend (st.agents sender) (ts / 86400) amount then none
  else
    match recordSpend (st.agents sender) (ts / 86400) amount with
    | none => none
    | some a1 =>
        some
          { payments := st.payments ++
              [⟨sender, dataSource, amount, dataHash, ts, queryType⟩]
            totalSpentByAgent := fun w =>
              if w = sender then st.totalSpentByAgent w + amount
              else st.totalSpentByAgent w
            paymentCountByAgent := fun w =>
              if w = sender then st.paymentCountByAgent w + 1
              else st.paymentCountByAgent w
            spentBySourceByAgent := fun w s =>
              if w = sender then
                if s = dataSource then st.spentBySourceByAgent w s + amount
                else st.spentBySourceByAgent w s
              else st.spentBySourceByAgent w s
            agents := fun w => if w = sender then a1 else st.agents w }

/-- the argument tuple of one contract logPayment transaction. -/
structure ChainCall where
  sender : Nat
  ts : Nat
  dataSource : String
  amount : Nat
  dataHash : String
  queryType : String
deriving DecidableEq, Repr

/-- one contract transaction from the chain's point of view: a revert
leaves the contract state unchanged. -/
def ledgerStep (st : PaymentLedgerState) (c : ChainCall) :
    PaymentLedgerState :=
  match ledgerLogPayment st c.sender c.ts c.dataSource c.amount c.dataHash
      c.queryType with
  | some st1 => st1
  | none => st

/-- a sequence of contract logPayment transactions. -/
def runChain (st : PaymentLedgerState) : List ChainCall → PaymentLedgerState
  | [] => st
  | c :: rest => runChain (ledgerStep st c) rest

/-- the contract state right after deployment: empty payments array,
zero-initialized mappings, and whatever agents the linked registry
holds. -/
def initLedger (agents0 : Nat → Agent) : PaymentLedgerState :=
  { payments := []
    totalSpentByAgent := fun _ => 0
    paymentCountByAgent := fun _ => 0
    spentBySourceByAgent := fun _ _ => 0
    agents := agents0 }

/-- the four named returns of the contract's getAgentStats. -/
structure ChainStats where
  totalSpent : Nat
  count : Nat
  firstPayment : Nat
  lastPayment : Nat
deriving DecidableEq, Repr

/-- getAgentStats of the PaymentLedger contract: the stored aggregate
mappings, returned as all zeros when the count is zero, else together
with the first and last matching timestamps found by the scan over the
payments array. -/
def ledgerGetAgentStats (st : PaymentLedgerState) (agent : Nat) :
    ChainStats :=
  let totalSpent := st.totalSpentByAgent agent
  let count := st.paymentCountByAgent agent
  if count = 0 then ⟨0, 0, 0, 0⟩
  else
    let ours := st.payments.filter (fun p => p.agent = agent)
    ⟨totalSpent, count,
      (ours.head?.map (fun p => p.timestamp)).getD 0,
      (ours.getLast?.map (fun p => p.timestamp)).getD 0⟩

/-! Concrete inputs used by the witnesses and counterexamples. -/

/-- a proof whose recovery succeeds under demoRecover. -/
def demoProof : PaymentProof :=
  ⟨"sig", "0xaa", "0xbb", 5, "res", 1, 100⟩

/-- a recovery function returning the signer of demoProof in a different
letter case, so the case-insensitive signature compare accepts. -/
def demoRecover : PaymentProof → String := fun _ => "0xAA"

/-- a proof with a lowercase from address. -/
def proofLowerFrom : PaymentProof :=
  ⟨"sig1", "0xab", "0xcc", 5, "res", 7, 100⟩

/-- the same payment as proofLowerFrom with the from address upcased. -/
def proofUpperFrom : PaymentProof :=
  ⟨"sig2", "0xAB", "0xcc", 5, "res", 7, 100⟩

/-- a recovery function for the shared signer of proofLowerFrom and
proofUpperFrom. -/
def caseRecover : PaymentProof → String := fun _ => "0xAB"

/-- C1: a rejected verifyPaymentProof call leaves the replay set
unchanged; an accepting call inserts exactly the (from, nonce) key, and a
second call with the same proof against the updated set is rejected with
reason "Nonce already used". -/
theorem verify_valid_once (recover : PaymentProof → String) (now : Nat)
    (used : List String) (proof : PaymentProof)
    (er : String) (ea : Int) :
    ((verifyPaymentProof recover now used proof er ea).1.valid = false →
      (verifyPaymentProof recover now used proof er ea).2 = used) ∧
    ((verifyPaymentProof recover now used proof er ea).1.valid = true →
      (verifyPaymentProof recover now used proof er ea).2
          = nonceKey proof :: used ∧
      (verifyPaymentProof recover now
          (verifyPaymentProof recover now used proof er ea).2 proof er ea).1
        = ⟨false, "", some "Nonce already used"⟩) := by
  unfold verifyPaymentProof
  split_ifs with h1 h2 h3 h4 h5 <;> simp_all

/-- C1 witness: demoProof is accepted once from the empty replay set and
the second identical call is rejected as a replay. -/
theorem verify_valid_once_witness :
    (verifyPaymentProof demoRecover 50 [] demoProof "res" 5).2
        = nonceKey demoProof :: [] ∧
    (verifyPaymentProof demoRecover 50
        (verifyPaymentProof demoRecover 50 [] demoProof "res" 5).2
        demoProof "res" 5).1
      = ⟨false, "", some "Nonce already used"⟩ :=
  (verify_valid_once demoRecover 50 [] demoProof "res" 5).2 (by decide)

/-- C3 counterexample: at the boundary expiry = now the code accepts the
proof, so verifyPaymentProof does not accept only while now < expiry. -/
theorem verify_accepts_at_expiry_boundary :
    (verifyPaymentProof demoRecover 100 [] demoProof "res" 5).1.valid = true ∧
    demoProof.expiry = 100 ∧ ¬ (100 < demoProof.expiry) := by decide

/-- C3 amended: verifyPaymentProof accepts only while now ≤ expiry, and
every proof with expiry < now is rejected with the expiry reason
regardless of the recovery function, i.e. of signature correctness. -/
theorem verify_expiry_rule (recover : PaymentProof → String) (now : Nat)
    (used : List String) (proof : PaymentProof) (er : String) (ea : Int) :
    ((verifyPaymentProof recover now used proof er ea).1.valid = true →
      now ≤ proof.expiry) ∧
    (proof.expiry < now →
      (verifyPaymentProof recover now used proof er ea).1
        = ⟨false, "", some "Payment proof expired"⟩) := by
  unfold verifyPaymentProof
  split_ifs with h1 h2 h3 h4 h5 <;> simp_all

/-- C3 witness: the accepted demoProof at now = 50 is unexpired, and at
now = 200 the same proof is rejected as expired. -/
theorem verify_expiry_rule_witness :
    (50 ≤ demoProof.expiry) ∧
    (verifyPaymentProof demoRecover 200 [] demoProof "res" 5).1
      = ⟨false, "", some "Payment proof expired"⟩ :=
  ⟨(verify_expiry_rule demoRecover 50 [] demoProof "res" 5).1 (by decide),
   (verify_expiry_rule demoRecover 200 [] demoProof "res" 5).2 (by decide)⟩

/-- C5: the five checks run in the fixed order expiry, replay, amount,
resource, signature, short-circuiting on the first failure, so the
reported reason is that of the earliest failing check; overpayment
passes the amount check and only full success yields valid. -/
theorem verify_check_order (recover : PaymentProof → String) (now : Nat)
    (used : List String) (proof : PaymentProof) (er : String) (ea : Int) :
    (proof.expiry < now →
      (verifyPaymentProof recover now used proof er ea).1
        = ⟨false, "", some "Payment proof expired"⟩) ∧
    (¬ proof.expiry < now → nonceKey proof ∈ used →
      (verifyPaymentProof recover now used proof er ea).1
        = ⟨false, "", some "Nonce already used"⟩) ∧
    (¬ proof.expiry < now → nonceKey proof ∉ used → proof.amount < ea →
      (verifyPaymentProof recover now used proof er ea).1
        = ⟨false, "", some ("Insufficient payment: " ++ toString proof.amount ++
            " < " ++ toString ea)⟩) ∧
    (¬ proof.expiry < now → nonceKey proof ∉ used → ea ≤ proof.amount →
      proof.resource ≠ er →
      (verifyPaymentProof recover now used proof er ea).1
        = ⟨false, "", some ("Resource mismatch: " ++ proof.resource ++
            " !== " ++ er)⟩) ∧
    (¬ proof.expiry < now → nonceKey proof ∉ used → ea ≤ proof.amount →
      proof.resource = er →
      lowerStr (recover proof) ≠ lowerStr proof.fromAddr →
      (verifyPaymentProof recover now used proof er ea).1
        = ⟨false, recover proof,
            some "Signature does not match claimed sender"⟩) ∧
    (¬ proof.expiry < now → nonceKey proof ∉ used → ea ≤ proof.amount →
      proof.resource = er →
      lowerStr (recover proof) = lowerStr proof.fromAddr →
      (verifyPaymentProof recover now used proof er ea).1
        = ⟨true, recover proof, none⟩) := by
  unfold verifyPaymentProof
  split_ifs with h1 h2 h3 h4 h5 <;> simp_all

/-- C5 witness: a proof failing both the amount and the resource check is
rejected with the amount reason, the earlier of the two in the check
order. -/
theorem verify_check_order_witness :
    (verifyPaymentProof demoRecover 50 [] demoProof "other" 9).1
      = ⟨false, "", some ("Insufficient payment: " ++
          toString demoProof.amount ++ " < " ++ toString (9 : Int))⟩ :=
  (verify_check_order demoRecover 50 [] demoProof "other" 9).2.2.1
    (by decide) (by decide) (by decide)

/-- C10: the replay set keys on the raw from string while the signature
compare is case-insensitive, so two proofs identical except for the
letter case of the from address are both accepted in sequence. -/
theorem verify_accepts_case_variant_replay :
    (verifyPaymentProof caseRecover 50 [] proofLowerFrom "res" 5).1.valid
        = true ∧
    (verifyPaymentProof caseRecover 50
        (verifyPaymentProof caseRecover 50 [] proofLowerFrom "res" 5).2
        proofUpperFrom "res" 5).1.valid = true ∧
    lowerStr proofLowerFrom.fromAddr = lowerStr proofUpperFrom.fromAddr ∧
    proofLowerFrom.nonce = proofUpperFrom.nonce ∧
    proofLowerFrom.fromAddr ≠ proofUpperFrom.fromAddr := by decide

/-- a registered active agent with the budget of scenario A of the spec. -/
def demoAgentA : Agent := ⟨1, "demo", 1000000, 0, 10, true, 0⟩

/-- a registered active agent whose stored spentToday predates the
current day. -/
def demoAgentB : Agent := ⟨2, "demo2", 1000000, 999999, 10, true, 0⟩

/-- helper: one recordSpend transaction keeps the budget and never moves
spentToday above the (unchanged) daily budget, given it held before. -/
theorem recordSpendStep_preserves (a : Agent) (d amt : Nat)
    (h : a.spentToday ≤ a.dailyBudget) :
    (recordSpendStep a d amt).1.dailyBudget = a.dailyBudget ∧
    (recordSpendStep a d amt).1.spentToday ≤ a.dailyBudget := by
  unfold recordSpendStep recordSpend
  split_ifs <;> simp_all <;> split_ifs <;> simp_all

/-- helper: the budget invariant holds after any sequence of recordSpend
transactions on one day. -/
theorem runSpends_invariant (d : Nat) (amts : List Nat) :
    ∀ a : Agent, a.spentToday ≤ a.dailyBudget →
      (runSpends a d amts).dailyBudget = a.dailyBudget ∧
      (runSpends a d amts).spentToday ≤ a.dailyBudget := by
  induction amts with
  | nil => intro a h; simp [runSpends, h]
  | cons amt rest ih =>
      intro a h
      have hstep := recordSpendStep_preserves a d amt h
      have hrest := ih (recordSpendStep a d amt).1 (hstep.1 ▸ hstep.2)
      unfold runSpends
      exact ⟨hrest.1.trans hstep.1, hstep.1 ▸ hrest.2⟩

/-- C2: after any sequence of recordSpend calls on one day, starting from
a state respecting the budget, spentToday stays at most the unchanged
dailyBudget; a reverting call leaves the state unchanged; and in
scenario A with budget 1000000, recordSpend of 500000 succeeds giving
spentToday 500000, then recordSpend of 600000 on the same day reverts. -/
theorem recordSpend_daily_budget :
    (∀ (a : Agent) (d : Nat) (amts : List Nat),
        a.spentToday ≤ a.dailyBudget →
        (runSpends a d amts).dailyBudget = a.dailyBudget ∧
        (runSpends a d amts).spentToday ≤ a.dailyBudget) ∧
    (∀ (a : Agent) (d amt : Nat),
        recordSpend a d amt = none → (recordSpendStep a d amt).1 = a) ∧
    (recordSpend demoAgentA 10 500000
        = some { demoAgentA with spentToday := 500000 } ∧
      recordSpend { demoAgentA with spentToday := 500000 } 10 600000
        = none) := by
  refine ⟨fun a d amts h => runSpends_invariant d amts a h, ?_, ?_⟩
  · intro a d amt h
    unfold recordSpendStep
    rw [h]
  · decide

/-- C2 witness: running scenario A through the sequence semantics keeps
the budget invariant at the concrete agent. -/
theorem recordSpend_daily_budget_witness :
    (runSpends demoAgentA 10 [500000, 600000]).dailyBudget
        = demoAgentA.dailyBudget ∧
    (runSpends demoAgentA 10 [500000, 600000]).spentToday
        ≤ demoAgentA.dailyBudget :=
  recordSpend_daily_budget.1 demoAgentA 10 [500000, 600000] (by decide)

/-- C4: canSpend returns true exactly when recordSpend at the same day
succeeds, for every agent state; and on a day rollover the effective
spent compared against the budget is 0 whatever spentToday stores. -/
theorem canSpend_iff_recordSpend :
    (∀ (a : Agent) (d amt : Nat),
        canSpend a d amt = true ↔ (recordSpend a d amt).isSome = true) ∧
    (∀ (a : Agent) (d amt : Nat), a.wallet ≠ 0 → a.active = true →
        a.lastResetDay < d →
        (canSpend a d amt = true ↔ amt ≤ a.dailyBudget)) := by
  constructor
  · intro a d amt
    unfold canSpend recordSpend
    split_ifs <;> simp_all
  · intro a d amt h1 h2 h3
    unfold canSpend
    split_ifs <;> simp_all

/-- C4 witness: the equivalence at scenario agent A, and the rollover
rule at agent B whose stored spentToday of the previous day is ignored. -/
theorem canSpend_iff_recordSpend_witness :
    (canSpend demoAgentA 10 500000 = true
        ↔ (recordSpend demoAgentA 10 500000).isSome = true) ∧
    (canSpend demoAgentB 11 900000 = true
        ↔ 900000 ≤ demoAgentB.dailyBudget) :=
  ⟨canSpend_iff_recordSpend.1 demoAgentA 10 500000,
   canSpend_iff_recordSpend.2 demoAgentB 11 900000 (by decide) (by decide)
     (by decide)⟩

/-- C6 counterexample: two distinct issuing calls for the same
(resource, amount, receiver) on which the random source repeats its draw
return requirements with equal nonces, so nonces are not always
different. -/
theorem createPaymentRequirement_nonce_collision :
    (createPaymentRequirement 42 100 "res" "5" "0xr")
        ≠ (createPaymentRequirement 42 200 "res" "5" "0xr") ∧
    (createPaymentRequirement 42 100 "res" "5" "0xr").nonce
        = (createPaymentRequirement 42 200 "res" "5" "0xr").nonce := by
  decide

/-- C6 amended: every issuing call uses its own fresh random draw and
sets expiry to now plus 300 seconds, and two requirements for identical
(resource, amount, receiver) carry different nonces whenever the draws
differ modulo 1000000; nothing prevents equal draws. -/
theorem createPaymentRequirement_fresh (rand1 now1 rand2 now2 : Nat)
    (resource amount receiver : String) :
    ((createPaymentRequirement rand1 now1 resource amount receiver).expiry
        = now1 + 300) ∧
    (rand1 % 1000000 ≠ rand2 % 1000000 →
      (createPaymentRequirement rand1 now1 resource amount receiver).nonce
        ≠ (createPaymentRequirement rand2 now2 resource amount receiver).nonce) := by
  unfold createPaymentRequirement
  exact ⟨rfl, fun h => h⟩

/-- C6 witness: distinct draws 1 and 2 give distinct nonces, and the
expiry of the first call is 100 + 300. -/
theorem createPaymentRequirement_fresh_witness :
    ((createPaymentRequirement 1 100 "res" "5" "0xr").expiry = 100 + 300) ∧
    (createPaymentRequirement 1 100 "res" "5" "0xr").nonce
      ≠ (createPaymentRequirement 2 200 "res" "5" "0xr").nonce :=
  ⟨(createPaymentRequirement_fresh 1 100 2 200 "res" "5" "0xr").1,
   (createPaymentRequirement_fresh 1 100 2 200 "res" "5" "0xr").2 (by decide)⟩

/-- helper: the challenge branch always ends the call at two requests. -/
theorem handleChallenge_count (agentAddress : String)
    (sign : String → String → String → Nat → Nat → String)
    (randNonce now : Nat) (amountArg : Option String)
    (r : RequirementJson) (serve : PaymentProofJson → HttpResponse) :
    (handleChallenge agentAddress sign randNonce now amountArg r serve).2
      = 2 := by
  unfold handleChallenge
  dsimp only
  split_ifs <;> (try split) <;> rfl

/-- C7: payAndFetch makes at most two requests; a non-402 first response
is returned unpaid from one request; bare and nested challenge bodies
are handled identically; omitted nonce and expiry are replaced by the
client defaults in the signed proof; an unparsable challenge is a
one-request error; and a parsed challenge leads to exactly one retry,
whose non-success response is a terminal failure. -/
theorem payAndFetch_handshake
    (agentAddress : String)
    (sign : String → String → String → Nat → Nat → String)
    (randNonce now : Nat) (amountArg : Option String)
    (first : HttpResponse) (serve : PaymentProofJson → HttpResponse) :
    ((payAndFetch agentAddress sign randNonce now amountArg first serve).2
        ≤ 2) ∧
    (first.status ≠ 402 → respOk first = true →
      ∀ d, first.payload = some d →
        payAndFetch agentAddress sign randNonce now amountArg first serve
          = (.success ⟨d, false, "0", none⟩, 1)) ∧
    (∀ r : RequirementJson,
      payAndFetch agentAddress sign randNonce now amountArg
          ⟨402, some (.bare r), first.payload⟩ serve
        = payAndFetch agentAddress sign randNonce now amountArg
          ⟨402, some (.nested r), first.payload⟩ serve) ∧
    (∀ r : RequirementJson, r.nonce = none →
      (buildProof agentAddress sign randNonce now amountArg r).nonce
        = randNonce) ∧
    (∀ r : RequirementJson, r.expiry = none →
      (buildProof agentAddress sign randNonce now amountArg r).expiry
        = now + 300) ∧
    (first.status = 402 → first.challenge = none →
      payAndFetch agentAddress sign randNonce now amountArg first serve
        = (.failure "Could not parse 402 payment requirement from server",
            1)) ∧
    (∀ cj : ChallengeJson, first.status = 402 →
      first.challenge = some cj →
      (payAndFetch agentAddress sign randNonce now amountArg first serve).2
          = 2 ∧
      (respOk (serve (buildProof agentAddress sign randNonce now amountArg
            (reqOf cj))) = false →
        payAndFetch agentAddress sign randNonce now amountArg first serve
          = (.failure ("Paid request failed: " ++ toString
              (serve (buildProof agentAddress sign randNonce now amountArg
                (reqOf cj))).status), 2))) := by
  obtain ⟨status, challenge, payload⟩ := first
  refine ⟨?_, ?_, ?_, ?_, ?_, ?_, ?_⟩
  · unfold payAndFetch
    split_ifs <;> (try split) <;> simp [handleChallenge_count]
  · intro h1 h2 d h3
    dsimp only at h1 h2 h3
    unfold payAndFetch
    simp_all
  · intro r
    unfold payAndFetch
    simp [reqOf]
  · intro r h
    simp [buildProof, jsOrNat, h]
  · intro r h
    simp [buildProof, jsOrNat, h]
  · intro h1 h2
    dsimp only at h1 h2
    subst h1 h2
    unfold payAndFetch
    simp
  · intro cj h1 h2
    dsimp only at h1 h2
    subst h1 h2
    constructor
    · unfold payAndFetch
      simp [handleChallenge_count]
    · intro hbad
      unfold payAndFetch handleChallenge
      simp_all

/-- a server-issued requirement omitting nonce and expiry. -/
def demoRequirement : RequirementJson := ⟨"100", "0xrecv", "res", none, none⟩

/-- a signing function for the witnesses. -/
def demoSign : String → String → String → Nat → Nat → String :=
  fun _ _ _ _ _ => "sig"

/-- a retry responder that always fails with a 500. -/
def demoServe : PaymentProofJson → HttpResponse := fun _ => ⟨500, none, none⟩

/-- a 402 first response carrying a bare requirement body. -/
def demoFirst402 : HttpResponse := ⟨402, some (.bare demoRequirement), none⟩

/-- C7 witness: on a concrete challenge whose retry gets a 500, the call
makes exactly two requests and ends in the terminal paid-request
failure. -/
theorem payAndFetch_handshake_witness :
    (payAndFetch "0xagent" demoSign 9 1000 none demoFirst402 demoServe).2
        = 2 ∧
    payAndFetch "0xagent" demoSign 9 1000 none demoFirst402 demoServe
      = (.failure ("Paid request failed: " ++ toString
          (demoServe (buildProof "0xagent" demoSign 9 1000 none
            (reqOf (ChallengeJson.bare demoRequirement)))).status), 2) := by
  have h := (payAndFetch_handshake "0xagent" demoSign 9 1000 none
      demoFirst402 demoServe).2.2.2.2.2.2 (ChallengeJson.bare demoRequirement)
      rfl rfl
  exact ⟨h.1, h.2 (by decide)⟩

/-- the tier a ledger call in config.ts ends up using, as a function of
whether the contract object is configured and whether the awaited
contract call succeeds. -/
def usesChainTier (configured callOk : Bool) : Bool :=
  configured && callOk

/-- an in-memory fallback record used by the ledger counterexamples. -/
def memRecordX : PaymentRecord := ⟨"0xa", "prov", 5, "security", "h", 10⟩

/-- C8 counterexample: with the authoritative store configured (first
argument true) but the contract read throwing (chainRead none, the
unreachable case), getPaymentsByAgent serves the record held only by the
in-memory fallback store. -/
theorem read_serves_fallback_when_unreachable :
    getPaymentsByAgentTs true none "0xa" ⟨[memRecordX], ⟨5, 1, 10, 10⟩⟩ none
        = [memRecordX] ∧
    memRecordX.agent = "0xa" := by decide

/-- C8 amended: the read and the commit select their tier by the same
rule, the authoritative store exactly when it is configured and the
respective contract call succeeds; so a configured-but-unreachable
authoritative store sends both the commit and the read to the in-memory
fallback. -/
theorem ledger_read_write_same_tier (chainConfigured chainWriteOk : Bool)
    (chainRead : Option (List PaymentRecord)) (agentAddress : String)
    (now : Nat) (st : TsLedgerState) (provider : String) (amount : Int)
    (serviceType txHash : String) (agentArg : Option String) :
    ((logPaymentTs chainConfigured chainWriteOk agentAddress now st provider
        amount serviceType txHash).1.onChain
      = usesChainTier chainConfigured chainWriteOk) ∧
    ((logPaymentTs chainConfigured chainWriteOk agentAddress now st provider
        amount serviceType txHash).1.success = true) ∧
    ((logPaymentTs chainConfigured chainWriteOk agentAddress now st provider
        amount serviceType txHash).2
      = if usesChainTier chainConfigured chainWriteOk = true then st
        else (fallbackLog agentAddress now st provider amount serviceType
            txHash).2) ∧
    (getPaymentsByAgentTs chainConfigured chainRead agentAddress st agentArg
      = if usesChainTier chainConfigured chainRead.isSome = true then
          chainRead.getD []
        else
          st.mem.filter (fun r => lowerStr r.agent
            = lowerStr (resolveAddr agentAddress agentArg))) := by
  cases chainConfigured <;> cases chainWriteOk <;> cases chainRead <;>
    simp [logPaymentTs, getPaymentsByAgentTs, usesChainTier, fallbackLog]

/-- helper: the sum over an appended record. -/
theorem sumAmounts_append_single (l : List PaymentRecord)
    (r : PaymentRecord) :
    sumAmounts (l ++ [r]) = sumAmounts l + r.amount := by
  simp [sumAmounts, List.foldl_append]

/-- C9 counterexample: after one fallback commit by the process agent,
the stats reported for a different agent carry the global totals, not
the sum and count over that agent's (empty) record list. -/
theorem fallback_stats_not_per_agent :
    (getAgentStatsTs false none
        (logPaymentTs false false "0xaaa" 10 ⟨[], ⟨0, 0, 0, 0⟩⟩ "prov" 5
          "security" "h").2).totalSpent = 5 ∧
    (getAgentStatsTs false none
        (logPaymentTs false false "0xaaa" 10 ⟨[], ⟨0, 0, 0, 0⟩⟩ "prov" 5
          "security" "h").2).queryCount = 1 ∧
    getPaymentsByAgentTs false none "0xaaa"
        (logPaymentTs false false "0xaaa" 10 ⟨[], ⟨0, 0, 0, 0⟩⟩ "prov" 5
          "security" "h").2 (some "0xbbb") = [] ∧
    sumAmounts [] = 0 := by decide

/-- helper: with no authoritative store configured, every commit goes to
the fallback, which keeps the global stats equal to the sum and count
over all fallback records, all carrying the process agent address. -/
theorem runLogsTs_fallback_invariant (agentAddress : String) (wOk : Bool)
    (calls : List CommitCall) :
    ∀ st : TsLedgerState,
      st.memStats.totalSpent = sumAmounts st.mem →
      st.memStats.queryCount = st.mem.length →
      st.mem.all (fun r => r.agent = agentAddress) = true →
      (runLogsTs agentAddress false wOk st calls).memStats.totalSpent
        = sumAmounts (runLogsTs agentAddress false wOk st calls).mem ∧
      (runLogsTs agentAddress false wOk st calls).memStats.queryCount
        = (runLogsTs agentAddress false wOk st calls).mem.length ∧
      (runLogsTs agentAddress false wOk st calls).mem.all
        (fun r => r.agent = agentAddress) = true := by
  induction calls with
  | nil =>
      intro st h1 h2 h3
      exact ⟨h1, h2, h3⟩
  | cons c rest ih =>
      intro st h1 h2 h3
      unfold runLogsTs
      apply ih
      · simp [logPaymentTs, fallbackLog, sumAmounts_append_single, h1]
      · simp [logPaymentTs, fallbackLog, h2]
      · simp [logPaymentTs, fallbackLog, h3]

/-- helper: the JS default of the agent argument is the identity when the
caller passes the process agent address itself. -/
theorem resolveAddr_self (a : String) : resolveAddr a (some a) = a := by
  unfold resolveAddr jsOrStr
  dsimp only
  split_ifs <;> rfl

/-- the per-agent aggregate invariant of the PaymentLedger contract:
each stored mapping entry equals the sum, respectively the count, over
the payments recorded for that agent. -/
def chainInv (st : PaymentLedgerState) : Prop :=
  ∀ w : Nat,
    st.totalSpentByAgent w
        = sumPay (st.payments.filter (fun p => p.agent = w)) ∧
    st.paymentCountByAgent w
        = (st.payments.filter (fun p => p.agent = w)).length

/-- helper: the sum over an appended contract payment. -/
theorem sumPay_append_single (l : List Payment) (p : Payment) :
    sumPay (l ++ [p]) = sumPay l + p.amount := by
  simp [sumPay, List.foldl_append]

/-- helper: one contract logPayment transaction, committed or reverted,
preserves the aggregate invariant. -/
theorem ledgerStep_inv (st : PaymentLedgerState) (c : ChainCall)
    (h : chainInv st) : chainInv (ledgerStep st c) := by
  unfold ledgerStep ledgerLogPayment
  split_ifs with h1 h2 h3 h4
  · exact h
  · exact h
  · exact h
  · exact h
  · cases hr : recordSpend (st.agents c.sender) (c.ts / 86400) c.amount with
    | none => simp only [hr]; exact h
    | some a1 =>
        simp only [hr]
        intro w
        obtain ⟨ht, hc⟩ := h w
        by_cases hw : w = c.sender
        · subst hw
          constructor
          · simp [List.filter_append, sumPay_append_single, ht]
          · simp [List.filter_append, hc]
        · constructor
          · simp [List.filter_append, sumPay, ht, hw, Ne.symm hw]
          · simp [List.filter_append, hc, hw, Ne.symm hw]

/-- helper: the aggregate invariant is preserved by any transaction
sequence. -/
theorem runChain_inv (calls : List ChainCall) :
    ∀ st : PaymentLedgerState, chainInv st → chainInv (runChain st calls) := by
  induction calls with
  | nil => intro st h; exact h
  | cons c rest ih =>
      intro st h
      exact ih (ledgerStep st c) (ledgerStep_inv st c h)

/-- helper: the invariant holds at deployment. -/
theorem initLedger_inv (agents0 : Nat → Agent) :
    chainInv (initLedger agents0) := by
  intro w
  simp [initLedger, sumPay]

/-- helper: under the invariant, the stats the contract reports for an
agent are the sum and count over that agent's recorded payments (also
through the count-zero early return). -/
theorem ledgerGetAgentStats_from_inv (st : PaymentLedgerState)
    (h : chainInv st) (w : Nat) :
    (ledgerGetAgentStats st w).totalSpent
        = sumPay (st.payments.filter (fun p => p.agent = w)) ∧
    (ledgerGetAgentStats st w).count
        = (st.payments.filter (fun p => p.agent = w)).length := by
  obtain ⟨ht, hc⟩ := h w
  unfold ledgerGetAgentStats
  dsimp only
  split_ifs with h0
  · have hlen : (st.payments.filter (fun p => p.agent = w)).length = 0 := by
      rw [← hc, h0]
    have hnil := List.length_eq_zero.mp hlen
    simp [hnil, sumPay]
  · exact ⟨ht, hc⟩

/-- C9 amended: on the authoritative tier, after any transaction
sequence from deployment the PaymentLedger contract reports, for every
agent, a total spent equal to the sum of amount over that agent's
committed payments and a count equal to their number; on the fallback
tier the aggregates are process-global, equal to the sum and count over
all fallback records, which all carry the process agent address, so the
stats reported with no store configured match the process agent's own
records (the counterexample shows they are not per-agent for any other
address). -/
theorem ledger_aggregates_match_records :
    (∀ (agents0 : Nat → Agent) (calls : List ChainCall) (w : Nat),
        (ledgerGetAgentStats (runChain (initLedger agents0) calls)
            w).totalSpent
          = sumPay ((runChain (initLedger agents0) calls).payments.filter
              (fun p => p.agent = w)) ∧
        (ledgerGetAgentStats (runChain (initLedger agents0) calls) w).count
          = ((runChain (initLedger agents0) calls).payments.filter
              (fun p => p.agent = w)).length) ∧
    (∀ (agentAddress : String) (wOk : Bool) (calls : List CommitCall),
        (runLogsTs agentAddress false wOk ⟨[], ⟨0, 0, 0, 0⟩⟩
            calls).memStats.totalSpent
          = sumAmounts (runLogsTs agentAddress false wOk ⟨[], ⟨0, 0, 0, 0⟩⟩
              calls).mem ∧
        (runLogsTs agentAddress false wOk ⟨[], ⟨0, 0, 0, 0⟩⟩
            calls).memStats.queryCount
          = (runLogsTs agentAddress false wOk ⟨[], ⟨0, 0, 0, 0⟩⟩
              calls).mem.length ∧
        (runLogsTs agentAddress false wOk ⟨[], ⟨0, 0, 0, 0⟩⟩ calls).mem.all
            (fun r => r.agent = agentAddress) = true ∧
        (getAgentStatsTs false none
            (runLogsTs agentAddress false wOk ⟨[], ⟨0, 0, 0, 0⟩⟩
              calls)).totalSpent
          = sumAmounts (getPaymentsByAgentTs false none agentAddress
              (runLogsTs agentAddress false wOk ⟨[], ⟨0, 0, 0, 0⟩⟩ calls)
              (some agentAddress)) ∧
        (getAgentStatsTs false none
            (runLogsTs agentAddress false wOk ⟨[], ⟨0, 0, 0, 0⟩⟩
              calls)).queryCount
          = (getPaymentsByAgentTs false none agentAddress
              (runLogsTs agentAddress false wOk ⟨[], ⟨0, 0, 0, 0⟩⟩ calls)
              (some agentAddress)).length) := by
  constructor
  · intro agents0 calls w
    exact ledgerGetAgentStats_from_inv _
      (runChain_inv calls _ (initLedger_inv agents0)) w
  · intro agentAddress wOk calls
    obtain ⟨h1, h2, h3⟩ :=
      runLogsTs_fallback_invariant agentAddress wOk calls ⟨[], ⟨0, 0, 0, 0⟩⟩
        (by simp [sumAmounts]) rfl (by simp)
    have hfilter :
        (runLogsTs agentAddress false wOk ⟨[], ⟨0, 0, 0, 0⟩⟩
            calls).mem.filter
            (fun r => lowerStr r.agent
              = lowerStr (resolveAddr agentAddress (some agentAddress)))
          = (runLogsTs agentAddress false wOk ⟨[], ⟨0, 0, 0, 0⟩⟩
              calls).mem := by
      apply List.filter_eq_self.mpr
      intro r hr
      have hag := List.all_eq_true.mp h3 r hr
      simp only [decide_eq_true_eq] at hag
      simp [resolveAddr_self, hag]
    refine ⟨h1, h2, h3, ?_, ?_⟩ <;>
      simp [getAgentStatsTs, getPaymentsByAgentTs, hfilter, h1, h2]
